import Mathlib

/-!
Verification of the cloudflare-tunnel-example deployment scripts.

The TypeScript sources are shallowly embedded: every pure decision
procedure becomes a Lean function over an explicit model of its inputs
(file-system listings, external-command outcomes, parsed file contents),
and the asynchronous wrappers around `Deno.Command`, `Deno.stat`,
`Deno.readDir` and `fetch` are modelled by passing the observable outcome
of the external world as an argument.
-/

namespace CloudflareTunnel

/-! ### Character classes and string primitives

JavaScript string operations used by the scripts (`includes`, `endsWith`,
`split('\n')`, `replace(".json", "")` which replaces only the first
occurrence) are modelled over `List Char`. -/

/-- Lowercase hex digit, the `[a-f0-9]` part of the regexes in the scripts. -/
def isHexLower (c : Char) : Bool :=
  (decide ('a' ≤ c) && decide (c ≤ 'f')) || (decide ('0' ≤ c) && decide (c ≤ '9'))

/-- The character class `[a-f0-9-]` used by every tunnel-id regex. -/
def isIdChar (c : Char) : Bool :=
  isHexLower c || c == '-'

/-- JavaScript `\s`: the ECMAScript WhiteSpace and LineTerminator characters. -/
def isSpaceChar (c : Char) : Bool :=
  c == ' ' || c == '\t' || c == '\n' || c == '\r' || c == '\x0b' || c == '\x0c' ||
  c == '\u00a0' || c == '\u1680' ||
  (decide ('\u2000' ≤ c) && decide (c ≤ '\u200a')) ||
  c == '\u2028' || c == '\u2029' || c == '\u202f' || c == '\u205f' ||
  c == '\u3000' || c == '\ufeff'

/-- Substring occurrence over char lists; `containsSeg pat hay` is true iff
`pat` occurs contiguously in `hay` (the semantics of JS `String.includes`). -/
def containsSeg (pat : List Char) : List Char → Bool
  | [] => List.isPrefixOf pat []
  | c :: t => List.isPrefixOf pat (c :: t) || containsSeg pat t

/-- JS `s.includes(pat)`. -/
def strContains (s pat : String) : Bool :=
  containsSeg pat.toList s.toList

/-- JS `s.endsWith(suffix)`. -/
def strEndsWith (s suffix : String) : Bool :=
  List.isSuffixOf suffix.toList s.toList

/-- Splitting a char list at a separator character; `"a\nb".split('\n')`
semantics: a trailing separator yields a trailing empty segment. -/
def splitOnChar (sep : Char) : List Char → List (List Char)
  | [] => [[]]
  | c :: t =>
    let r := splitOnChar sep t
    if c == sep then [] :: r
    else
      match r with
      | [] => [[c]]
      | h :: t2 => (c :: h) :: t2

/-- JS `s.split('\n')`, used on every captured command output. -/
def linesOf (s : String) : List String :=
  (splitOnChar '\n' s.toList).map String.mk

/-- Removes the first occurrence of `pat` (JS `s.replace(pat, "")`, which
replaces only the first match of a string pattern). -/
def removeFirstSeg (pat : List Char) : List Char → List Char
  | [] => []
  | c :: t =>
    if List.isPrefixOf pat (c :: t) then (c :: t).drop pat.length
    else c :: removeFirstSeg pat t

/-- JS `name.replace(".json", "")` as applied to credential file names. -/
def stripJson (s : String) : String :=
  String.mk (removeFirstSeg ".json".toList s.toList)

/-! ### Command Executor (`scripts/lib/command.ts`, `runCommand`)

`runCommand` spawns a process inside a `try`; the observable outcome of the
spawn is either a completed process (with exit success flag and both decoded
streams) or a thrown spawn error (executable not found, etc.). -/

/-- The `CommandResult` interface of `scripts/lib/command.ts` (also repeated
in `deploy.ts` and the diagnostics script): `error` is the optional field
holding captured stderr or the exception message. -/
structure CommandResult where
  success : Bool
  output : String
  error : Option String
deriving DecidableEq

/-- The `CommandOptions` of `scripts/lib/command.ts`; they only control
logging, never the returned result. -/
structure CommandOptions where
  description : Option String
  allowFailure : Bool
  suppressOutput : Bool
deriving DecidableEq

/-- Observable outcome of one `Deno.Command(...).output()` call: either the
process ran to completion, or the spawn itself threw. -/
inductive SpawnOutcome where
  | completed (exitSuccess : Bool) (stdout stderr : String)
  | spawnFailure (message : String)
deriving DecidableEq

/-- `runCommand` of `scripts/lib/command.ts` (lines 25-65): a completed
process maps to `CommandResult` with `error := stderr` on failure, and a
spawn exception is caught and normalized to `success := false`,
`output := ""`, `error := message`. The options affect console logging only. -/
def runCommand (_opts : CommandOptions) (o : SpawnOutcome) : CommandResult :=
  match o with
  | .completed true stdout _ => ⟨true, stdout, none⟩
  | .completed false stdout stderr => ⟨false, stdout, some stderr⟩
  | .spawnFailure message => ⟨false, "", some message⟩

/-! ### Tunnel id validation (`scripts/lib/tunnel.ts` `isValidTunnelId`,
and the same regex at `scripts/update-config.ts` line 116) -/

/-- `isValidTunnelId`: the regex `^[a-f0-9-]{36}$` — exactly 36 characters,
each a lowercase hex digit or a hyphen, with no constraint on where the
hyphens sit. -/
def isValidTunnelId (tunnelId : String) : Bool :=
  tunnelId.length == 36 && tunnelId.toList.all isIdChar

/-- Modelled from the spec: the canonical UUID shape the spec describes —
"36-character lowercase hex-and-hyphen string matching the canonical UUID
shape (8-4-4-4-12 hyphen-grouped hex digits)", i.e. hyphens exactly at
indices 8, 13, 18 and 23 and lowercase hex digits everywhere else.
This definition follows the spec text; it exists to be compared against
`isValidTunnelId`, which is translated from the code. -/
def uuidCanonicalShape (s : String) : Bool :=
  s.length == 36 &&
  (List.range 36).all (fun i =>
    let c := s.toList.getD i ' '
    if i == 8 || i == 13 || i == 18 || i == 23 then c == '-' else isHexLower c)

/-! ### Tunnel registry probe (diagnostics script `getTunnelList` and
`scripts/lib/tunnel.ts` `getTunnelList`)

Each output line of `tunnel list` is matched against
`/^([a-f0-9-]+)\s+(\S+)\s+/`.  The three character classes involved are
pairwise disjoint, so the regex is equivalent to maximal-munch parsing. -/

/-- The `TunnelInfo` interface shared by the diagnostics script and
`scripts/lib/tunnel.ts`. -/
structure TunnelInfo where
  id : String
  name : String
  hasCredentials : Bool
  credentialsPath : Option String
deriving DecidableEq

/-- One line matched against `/^([a-f0-9-]+)\s+(\S+)\s+/`, returning the two
capture groups (tunnel id and name). -/
def parseTunnelLine (line : String) : Option (String × String) :=
  let cs := line.toList
  let idPart := cs.takeWhile isIdChar
  let rest1 := cs.drop idPart.length
  let sp1 := rest1.takeWhile isSpaceChar
  let rest2 := rest1.drop sp1.length
  let namePart := rest2.takeWhile (fun c => !(isSpaceChar c))
  let rest3 := rest2.drop namePart.length
  let sp2 := rest3.takeWhile isSpaceChar
  if 0 < idPart.length ∧ 0 < sp1.length ∧ 0 < namePart.length ∧ 0 < sp2.length then
    some (String.mk idPart, String.mk namePart)
  else none

/-- `getTunnelList` (diagnostics script lines 47-90): on a failed `tunnel
list` invocation it returns `[]`; otherwise it parses every line and
cross-references `cloudflared/credentials/<id>.json` against the credential
directory listing (`credFileNames`). -/
def getTunnelList (listSuccess : Bool) (listOutput : String)
    (credFileNames : List String) : List TunnelInfo :=
  if listSuccess = false then []
  else
    (linesOf listOutput).filterMap (fun line =>
      (parseTunnelLine line).map (fun p =>
        let hasCreds := credFileNames.contains (p.1 ++ ".json")
        { id := p.1, name := p.2, hasCredentials := hasCreds,
          credentialsPath :=
            if hasCreds then some ("cloudflared/credentials/" ++ p.1 ++ ".json")
            else none }))

/-! ### Active tunnel id (diagnostics script lines 133-160 and
`scripts/lib/tunnel.ts` `getActiveTunnelId`, identical logic)

The pointer file `.tunnel-config.json` is read inside a `try`:
`pointerRead = none` models a missing/unreadable/unparsable file (the
`catch` path), and `pointerRead = some field` models a parsed JSON object
whose optional `activeTunnelId` string field is `field`.  Inside the `try`
the function returns `config.activeTunnelId || null`, so an absent or empty
field yields `null` without ever reaching the credentials-directory
fallback.  `credDir = none` models a missing credentials directory. -/

def getActiveTunnelId (pointerRead : Option (Option String))
    (credDir : Option (List String)) : Option String :=
  match pointerRead with
  | some field =>
    match field with
    | some id => if id = "" then none else some id
    | none => none
  | none =>
    let entries := (credDir.getD []).filter (fun n => strEndsWith n ".json")
    if entries.length = 1 then some (stripJson (entries.headD "")) else none

/-! ### Diagnostics Reporter (diagnostics script `diagnose`, lines 162-231)

`diagnose` is a pure function of the five probe results.  The issue/
recommendation analysis is split into one definition per source block. -/

/-- The `DiagnosticResult` interface of the diagnostics script; the script
only ever queries DNS for the single hostname `halibut.cc`, so the
`dnsRecords` map is the one boolean `dnsHalibut`. -/
structure DiagnosticResult where
  tunnels : List TunnelInfo
  configTunnelId : Option String
  activeTunnelId : Option String
  dnsHalibut : Bool
  containersRunning : Bool
  issues : List String
  recommendations : List String

/-- Diagnostics lines 189-198: the tunnel-count / duplicate-name block. -/
def tunnelSection (tunnels : List TunnelInfo) : List String × List String :=
  if tunnels.length = 0 then
    (["No tunnels found"], ["Run: deno task tunnel:create"])
  else if 1 < tunnels.length then
    (if 1 < (tunnels.filter (fun t => t.name == "cloudflare-tunnel-example")).length then
      (["Multiple tunnels with same name \u0027cloudflare-tunnel-example\u0027"],
       ["Delete old tunnels or use unique names"])
     else ([], []))
  else ([], [])

/-- Diagnostics lines 201-208: the credentialed-tunnel-count block. -/
def credSection (tunnelsWithCreds : List TunnelInfo) : List String × List String :=
  if tunnelsWithCreds.length = 0 then
    (["No tunnel has credentials"], ["Run tunnel creation to generate credentials"])
  else if 1 < tunnelsWithCreds.length then
    (["Multiple tunnels have credentials"], ["Clean up old tunnel credentials"])
  else ([], [])

/-- Diagnostics lines 211-216: the config-mismatch block; `configTunnelId`
must be truthy (non-empty) and exactly one tunnel must have credentials. -/
def configSection (configTunnelId : Option String)
    (tunnelsWithCreds : List TunnelInfo) : List String × List String :=
  match configTunnelId, tunnelsWithCreds with
  | some cid, [t] =>
    if cid ≠ "" then
      (if cid ≠ t.id then
        (["Config tunnel ID (" ++ cid ++ ") doesn\u0027t match tunnel with credentials ("
            ++ t.id ++ ")"],
         ["Update config.yml to use tunnel ID: " ++ t.id])
       else ([], []))
    else ([], [])
  | _, _ => ([], [])

/-- Diagnostics lines 219-222: the DNS block for `halibut.cc`. -/
def dnsSection (dnsHalibut : Bool) : List String × List String :=
  if dnsHalibut = false then
    (["DNS record for halibut.cc not found"], ["Run: deno task tunnel:route"])
  else ([], [])

/-- Diagnostics lines 225-228: the container block. -/
def containersSection (containersRunning : Bool) : List String × List String :=
  if containersRunning = false then
    (["Containers not running"], ["Run: deno task up"])
  else ([], [])

/-- `diagnose` (diagnostics script lines 162-231) as a pure function of the
probe results; issues and recommendations are pushed in source order. -/
def diagnose (tunnels : List TunnelInfo) (configTunnelId activeTunnelId : Option String)
    (dnsHalibut containersRunning : Bool) : DiagnosticResult :=
  let s1 := tunnelSection tunnels
  let tunnelsWithCreds := tunnels.filter (fun t => t.hasCredentials)
  let s2 := credSection tunnelsWithCreds
  let s3 := configSection configTunnelId tunnelsWithCreds
  let s4 := dnsSection dnsHalibut
  let s5 := containersSection containersRunning
  { tunnels := tunnels, configTunnelId := configTunnelId,
    activeTunnelId := activeTunnelId, dnsHalibut := dnsHalibut,
    containersRunning := containersRunning,
    issues := s1.1 ++ s2.1 ++ s3.1 ++ s4.1 ++ s5.1,
    recommendations := s1.2 ++ s2.2 ++ s3.2 ++ s4.2 ++ s5.2 }

/-! ### Deploy pipeline (`scripts/deploy.ts`)

`handleTunnelCreation` (lines 116-157) scans the `tunnel list` output for a
line containing `cloudflare-tunnel-example`, re-matching it against
`/^([a-f0-9-]+)\s+cloudflare-tunnel-example/` and returning the first id
found; otherwise it runs `tunnel create` and extracts the id from
`/Created tunnel ([a-f0-9-]+)/`. -/

/-- Match `/^([a-f0-9-]+)\s+cloudflare-tunnel-example/` against one line. -/
def matchTunnelIdForName (line : String) : Option String :=
  let cs := line.toList
  let idPart := cs.takeWhile isIdChar
  let rest1 := cs.drop idPart.length
  let sp1 := rest1.takeWhile isSpaceChar
  let rest2 := rest1.drop sp1.length
  if 0 < idPart.length ∧ 0 < sp1.length ∧
      List.isPrefixOf "cloudflare-tunnel-example".toList rest2 then
    some (String.mk idPart)
  else none

/-- Leftmost search for `/Created tunnel ([a-f0-9-]+)/`: at each position, if
the literal matches and at least one id character follows, capture it;
otherwise keep searching. -/
def createdIdSearch (pat : List Char) : List Char → Option (List Char)
  | [] => none
  | c :: t =>
    if List.isPrefixOf pat (c :: t) then
      let after := (c :: t).drop pat.length
      let idPart := after.takeWhile isIdChar
      if 0 < idPart.length then some idPart else createdIdSearch pat t
    else createdIdSearch pat t

/-- The `/Created tunnel ([a-f0-9-]+)/` extraction of `deploy.ts` line 150. -/
def matchCreatedId (out : String) : Option String :=
  (createdIdSearch "Created tunnel ".toList out.toList).map String.mk

/-- The existing-tunnel scan of `handleTunnelCreation` (`deploy.ts` lines
125-138): for each output line containing `cloudflare-tunnel-example`, return
the leading id of the first line that also matches the anchored regex. -/
def findExistingTunnelId (listResult : CommandResult) : Option String :=
  if listResult.success then
    (linesOf listResult.output).findSome? (fun line =>
      if strContains line "cloudflare-tunnel-example" then matchTunnelIdForName line
      else none)
  else none

/-- `handleTunnelCreation` (`deploy.ts` lines 116-157) as a function of the
`tunnel list` and `tunnel create` command results. -/
def handleTunnelCreation (listResult createResult : CommandResult) : Option String :=
  match findExistingTunnelId listResult with
  | some tid => some tid
  | none =>
    if createResult.success then matchCreatedId createResult.output else none

/-- `handleDNSRouting`'s classification (`deploy.ts` line 182):
`result.success || (result.error?.includes("already exists") ?? false)`. -/
def dnsRouteOk (result : CommandResult) : Bool :=
  result.success ||
    (match result.error with
     | some e => strContains e "already exists"
     | none => false)

/-- The externally observable inputs of one run of `deploy.ts` `main`
(lines 228-305): the outcome of each pipeline stage. `tunnelId` is the
return value of `handleTunnelCreation`, `dnsResult` the command result the
DNS-routing step classified, `verifySuccess` the success flag of the
`verify-endpoints.ts` subprocess invocation. -/
structure DeployRun where
  loginSuccess : Bool
  tunnelId : Option String
  configSuccess : Bool
  dnsResult : CommandResult
  deploySuccess : Bool
  verifySuccess : Bool
deriving DecidableEq

/-- The pipeline stages of `deploy.ts` `main`, in source order. -/
inductive Step where
  | credentials | login | create | config | dns | build | verify
deriving DecidableEq

/-- Observable outcome of `deploy.ts` `main`: the process exit code, the
stages that executed, the warnings printed for non-fatal failures, and the
final summary message of the verification branch. -/
structure DeployOutcome where
  exitCode : Nat
  executed : List Step
  warnings : List String
  finalNote : Option String
deriving DecidableEq

/-- `deploy.ts` `main` (lines 228-305).  Fatal stages (`login`, `create`,
`build`) call `Deno.exit(1)`; config and DNS failures only print warnings;
a verification failure prints a note and falls through to the end of `main`,
so the process exits 0. -/
def deployMain (r : DeployRun) : DeployOutcome :=
  if r.loginSuccess = false then
    ⟨1, [Step.credentials, Step.login], [], none⟩
  else
    match r.tunnelId with
    | none => ⟨1, [Step.credentials, Step.login, Step.create], [], none⟩
    | some _ =>
      let warns :=
        (if r.configSuccess = false then ["Failed to update config, but continuing..."]
         else []) ++
        (if dnsRouteOk r.dnsResult = false then ["DNS routing failed"] else [])
      if r.deploySuccess = false then
        ⟨1, [Step.credentials, Step.login, Step.create, Step.credentials,
             Step.config, Step.dns, Step.build], warns, none⟩
      else
        ⟨0, [Step.credentials, Step.login, Step.create, Step.credentials,
             Step.config, Step.dns, Step.build, Step.verify], warns,
         some (if r.verifySuccess then "Deployment successful!"
               else "Deployment completed but verification failed")⟩

/-! ### Verification Engine (`scripts/verify-endpoints.ts`) -/

/-- The `EndpointTest` interface of `verify-endpoints.ts`. -/
structure EndpointTest where
  url : String
  name : String
  expectedStatus : Nat
  expectedContent : Option String
  timeout : Nat
deriving DecidableEq

/-- The first configured endpoint (`verify-endpoints.ts` lines 22-28). -/
def mainEndpoint : EndpointTest :=
  ⟨"https://halibut.cc/", "Main Application", 200, some "Hello World", 10000⟩

/-- The second configured endpoint (`verify-endpoints.ts` lines 29-35). -/
def healthEndpoint : EndpointTest :=
  ⟨"https://halibut.cc/health", "Health Check", 200, some "\"status\":\"healthy\"", 10000⟩

/-- Observable outcome of the `fetch` in `testEndpoint`: a response (status,
body, `server` header), an abort timeout, or any other fetch error. -/
inductive FetchOutcome where
  | response (status : Nat) (body : String) (serverHeader : Option String)
  | abortTimeout
  | fetchFailure (message : String)
deriving DecidableEq

/-- `testEndpoint` (`verify-endpoints.ts` lines 38-97): a wrong status or a
missing expected substring fails; timeouts and fetch errors are caught and
fail; the routing-header check only logs and never affects the result. -/
def testEndpoint (e : EndpointTest) (o : FetchOutcome) : Bool :=
  match o with
  | .response status body _ =>
    if status ≠ e.expectedStatus then false
    else
      match e.expectedContent with
      | some content => strContains body content
      | none => true
  | .abortTimeout => false
  | .fetchFailure _ => false

/-- `verifyDeployment` of `verify-endpoints.ts` (lines 99-128): the script
exits 1 unless both configured endpoints pass, else it returns normally
(process exit 0). -/
def verifyDeploymentExit (mainOutcome healthOutcome : FetchOutcome) : Nat :=
  let results := [testEndpoint mainEndpoint mainOutcome,
                  testEndpoint healthEndpoint healthOutcome]
  let successCount := (results.filter (fun b => b)).length
  if successCount = results.length then 0 else 1

/-! ### Credential relocation (`deploy.ts` `ensureCredentialsInCorrectLocation`,
lines 59-93, and the identical `scripts/lib/tunnel.ts` version)

The `cloudflared/` directory is modelled as a listing of files (name and
content); `credDir = none` models a missing `cloudflared/credentials`
directory, which the function creates.  A `.json` file found at the root is
renamed into `credentials/` only when no file of that name exists there;
all errors in the loop are caught and reported as warnings, never thrown. -/

/-- One file, with content so that "unchanged" is expressible. -/
structure FileEntry where
  name : String
  content : String
deriving DecidableEq

/-- The `cloudflared/` directory: its root files and the optional
`credentials/` subdirectory listing. -/
structure CloudflaredDir where
  rootFiles : List FileEntry
  credDir : Option (List FileEntry)
deriving DecidableEq

/-- One iteration of the relocation loop over a root directory entry.  The
accumulator is (root files kept, credentials files, last moved tunnel id). -/
def credStep (acc : List FileEntry × List FileEntry × Option String)
    (f : FileEntry) : List FileEntry × List FileEntry × Option String :=
  if strEndsWith f.name ".json" = true then
    if acc.2.1.any (fun g => g.name == f.name) then
      (acc.1 ++ [f], acc.2.1, acc.2.2)
    else
      (acc.1, acc.2.1 ++ [f], some (stripJson f.name))
  else
    (acc.1 ++ [f], acc.2.1, acc.2.2)

/-- `ensureCredentialsInCorrectLocation` (`deploy.ts` lines 59-93): creates
the credentials directory if missing, then processes every root entry;
returns the new directory state and the `movedTunnelId` result. -/
def ensureCredentialsInCorrectLocation (d : CloudflaredDir) :
    CloudflaredDir × Option String :=
  let cred0 := d.credDir.getD []
  let r := d.rootFiles.foldl credStep ([], cred0, none)
  (⟨r.1, some r.2.1⟩, r.2.2)

/-! ### Configuration updater (`scripts/update-config.ts`)

The YAML file is modelled by the results of the two regex probes the script
performs on it: the first `/tunnel:\s*([a-f0-9-]+)/` capture and the first
`/credentials-file:\s*([^\n]+)/` capture.  A rewrite replaces exactly those
scalars (or inserts a `credentials-file` line when absent); the pointer file
`.tunnel-config.json` is rewritten with `activeTunnelId`. -/

/-- The two scalars of `cloudflared/config.yml` that the updater reads and
rewrites. -/
structure ConfigYml where
  tunnel : Option String
  credentialsFile : Option String
deriving DecidableEq

/-- The persisted pointer file `.tunnel-config.json` (its `activeTunnelId`
field). -/
structure PointerFile where
  activeTunnelId : String
deriving DecidableEq

/-- Result of `updateConfig`: its boolean return plus the on-disk state of
the config and pointer files after the call. -/
structure UpdateConfigResult where
  ok : Bool
  config : Option ConfigYml
  pointer : Option PointerFile
deriving DecidableEq

/-- The credentials path the updater writes (`update-config.ts` line 51). -/
def credentialsPathFor (tunnelId : String) : String :=
  "/etc/cloudflared/credentials/" ++ tunnelId ++ ".json"

/-- `updateConfig` (`update-config.ts` lines 28-84).  A missing config file
or a config without a `tunnel:` scalar returns false; when the config
already names `tunnelId` the function returns true immediately, writing
nothing; otherwise both scalars are rewritten and the pointer file is
updated. -/
def updateConfig (cfg : Option ConfigYml) (ptr : Option PointerFile)
    (tunnelId : String) : UpdateConfigResult :=
  match cfg with
  | none => ⟨false, cfg, ptr⟩
  | some c =>
    match c.tunnel with
    | none => ⟨false, cfg, ptr⟩
    | some oldTunnelId =>
      if oldTunnelId = tunnelId then ⟨true, cfg, ptr⟩
      else
        ⟨true, some ⟨some tunnelId, some (credentialsPathFor tunnelId)⟩,
         some ⟨tunnelId⟩⟩

/-- `getCredentialTunnelIds` (`update-config.ts` lines 12-26): every `.json`
file name in the credentials directory with the first `".json"` removed; a
missing directory yields `[]` via the `catch`. -/
def getCredentialTunnelIds (credDir : Option (List String)) : List String :=
  match credDir with
  | none => []
  | some names => (names.filter (fun n => strEndsWith n ".json")).map stripJson

/-- Observable outcome of `update-config.ts` `main`: exit code, final state
of the two files, and the candidate ids printed when disambiguation is
required. -/
structure UpdateMainResult where
  exitCode : Nat
  config : Option ConfigYml
  pointer : Option PointerFile
  candidateLog : List String
deriving DecidableEq

/-- The tail of `update-config.ts` `main` (lines 115-143) once a tunnel id
has been chosen: format validation, credentials existence check, then
`updateConfig`. -/
def updateConfigRunFor (tunnelId : String) (credDir : Option (List String))
    (cfg : Option ConfigYml) (ptr : Option PointerFile) : UpdateMainResult :=
  if isValidTunnelId tunnelId = false then ⟨1, cfg, ptr, []⟩
  else if (credDir.getD []).contains (tunnelId ++ ".json") = false then
    ⟨1, cfg, ptr, []⟩
  else
    let r := updateConfig cfg ptr tunnelId
    if r.ok then ⟨0, r.config, r.pointer, []⟩ else ⟨1, r.config, r.pointer, []⟩

/-- `update-config.ts` `main` (lines 86-143).  With no (truthy) argument the
id is detected from the credential files: zero candidates exit 1, one is
used, and several are listed and exit 1 without touching any file. -/
def updateConfigMain (arg : Option String) (credDir : Option (List String))
    (cfg : Option ConfigYml) (ptr : Option PointerFile) : UpdateMainResult :=
  let argGiven : Option String :=
    match arg with
    | some a => if a = "" then none else some a
    | none => none
  match argGiven with
  | some tid => updateConfigRunFor tid credDir cfg ptr
  | none =>
    let ids := getCredentialTunnelIds credDir
    if ids.length = 0 then ⟨1, cfg, ptr, []⟩
    else if ids.length = 1 then updateConfigRunFor (ids.headD "") credDir cfg ptr
    else ⟨1, cfg, ptr, ids⟩

/-! ### Concrete states used by counterexamples and witnesses -/

/-- A well-formed (canonically shaped) tunnel id. -/
def tunnelIdA : String := "aaaaaaaa-aaaa-aaaa-aaaa-aaaaaaaaaaaa"

/-- A second, distinct well-formed tunnel id. -/
def tunnelIdB : String := "bbbbbbbb-bbbb-bbbb-bbbb-bbbbbbbbbbbb"

/-- A `tunnel list` output containing two tunnels that share the expected
name `cloudflare-tunnel-example`. -/
def dupListing : String :=
  tunnelIdA ++ " cloudflare-tunnel-example 2024-01-01T00:00:00Z\n" ++
  tunnelIdB ++ " cloudflare-tunnel-example 2024-01-01T00:00:00Z\n"

/-- Registry entry for the first duplicate-named tunnel. -/
def dupTunnelA : TunnelInfo := ⟨tunnelIdA, "cloudflare-tunnel-example", false, none⟩

/-- Registry entry for the second duplicate-named tunnel. -/
def dupTunnelB : TunnelInfo := ⟨tunnelIdB, "cloudflare-tunnel-example", false, none⟩

/-- A failed DNS-routing command whose stderr announces the record already
exists. -/
def dnsAlreadyExistsResult : CommandResult :=
  ⟨false, "", some "Failed to add route: code: 1003, reason: Record already exists."⟩

/-- A deploy run whose only anomaly is the tolerated DNS-routing failure. -/
def dnsTolerantRun : DeployRun :=
  ⟨true, some tunnelIdA, true, dnsAlreadyExistsResult, true, true⟩

/-- A deploy run in which every action succeeds but the verification
subprocess fails because the health endpoint answered 500: `verifySuccess`
is the exit-0 test of `verify-endpoints.ts` on those fetch outcomes. -/
def verifyFailRun : DeployRun :=
  ⟨true, some tunnelIdA, true, ⟨true, "", none⟩, true,
   verifyDeploymentExit
     (FetchOutcome.response 200 "Hello World" (some "cloudflare"))
     (FetchOutcome.response 500 "Internal Server Error" (some "cloudflare")) == 0⟩

/-- A root credential file whose name collides with an existing file in the
credentials directory. -/
def conflictNew : FileEntry :=
  ⟨"cccccccc-cccc-cccc-cccc-cccccccccccc.json", "new-secret"⟩

/-- The pre-existing credentials-directory file of the same name. -/
def conflictOld : FileEntry :=
  ⟨"cccccccc-cccc-cccc-cccc-cccccccccccc.json", "old-secret"⟩

/-- A `cloudflared/` directory state with that name collision. -/
def conflictDir : CloudflaredDir := ⟨[conflictNew], some [conflictOld]⟩

/-! ## Theorems -/

/-- C1 (counterexample): on the clean-slate state (no tunnels, no config
tunnel id, no active tunnel id, DNS unresolved, containers down) `diagnose`
does not report 5 issues and 5 recommendations. -/
theorem diagnose_clean_slate_not_five :
    ¬ (((diagnose [] none none false false).issues.length = 5) ∧
       ((diagnose [] none none false false).recommendations.length = 5)) := by
  decide

/-- C1 (amended): on the clean-slate state `diagnose` reports exactly 4
issues and 4 paired recommendations — no-tunnels, no-credentials, the single
DNS hostname `halibut.cc`, and containers — whatever the config or active
tunnel id probes returned (with no credentialed tunnel the config-mismatch
block never fires). -/
theorem diagnose_clean_slate_counts :
    ∀ (cfg act : Option String),
      (diagnose [] cfg act false false).issues =
        ["No tunnels found", "No tunnel has credentials",
         "DNS record for halibut.cc not found", "Containers not running"] ∧
      (diagnose [] cfg act false false).recommendations =
        ["Run: deno task tunnel:create", "Run tunnel creation to generate credentials",
         "Run: deno task tunnel:route", "Run: deno task up"] ∧
      (diagnose [] cfg act false false).issues.length = 4 ∧
      (diagnose [] cfg act false false).recommendations.length = 4 := by
  intro cfg act
  cases cfg <;> cases act <;> exact ⟨rfl, rfl, rfl, rfl⟩

/-- C1 (witness): the amended counts at the concrete clean-slate probe
results. -/
theorem diagnose_clean_slate_counts_witness :
    (diagnose [] none none false false).issues.length = 4 ∧
    (diagnose [] none none false false).recommendations.length = 4 :=
  ⟨(diagnose_clean_slate_counts none none).2.2.1,
   (diagnose_clean_slate_counts none none).2.2.2⟩

/-- C6: `runCommand` always returns a `CommandResult` (it is total on every
spawn outcome): a completed process with non-zero exit yields
`success = false` with the captured stderr in `error`, a spawn failure
yields `success = false` with the failure reason in `error` and empty
output, and a successful exit yields `success = true` with no error. -/
theorem runCommand_normalizes_failures :
    ∀ (opts : CommandOptions) (stdout stderr message : String),
      runCommand opts (SpawnOutcome.completed true stdout stderr) = ⟨true, stdout, none⟩ ∧
      runCommand opts (SpawnOutcome.completed false stdout stderr) =
        ⟨false, stdout, some stderr⟩ ∧
      runCommand opts (SpawnOutcome.spawnFailure message) = ⟨false, "", some message⟩ := by
  intro opts stdout stderr message
  exact ⟨rfl, rfl, rfl⟩

/-- C6 (witness): a concrete spawn failure (executable not found) is
normalized into the `CommandResult` shape. -/
theorem runCommand_normalizes_failures_witness :
    runCommand ⟨none, false, false⟩
        (SpawnOutcome.spawnFailure "No such file or directory (os error 2)") =
      ⟨false, "", some "No such file or directory (os error 2)"⟩ :=
  (runCommand_normalizes_failures ⟨none, false, false⟩ "" ""
    "No such file or directory (os error 2)").2.2

/-- C7 (counterexample): `isValidTunnelId` accepts a 36-character string of
hex digits with no hyphen at all, which does not match the canonical
8-4-4-4-12 UUID shape, so acceptance is not equivalent to the canonical
shape. -/
theorem isValidTunnelId_accepts_non_uuid :
    isValidTunnelId "0123456789abcdef0123456789abcdef0123" = true ∧
    uuidCanonicalShape "0123456789abcdef0123456789abcdef0123" = false := by
  decide

/-- C7 (amended): the validator accepts every canonically shaped UUID, but
acceptance only means "36 characters, each a lowercase hex digit or a
hyphen" — hyphen positions are not checked. -/
theorem isValidTunnelId_superset_of_uuid :
    ∀ s : String, uuidCanonicalShape s = true → isValidTunnelId s = true := by
  intro s h
  unfold uuidCanonicalShape at h
  rw [Bool.and_eq_true] at h
  obtain ⟨hlen, hall⟩ := h
  unfold isValidTunnelId
  rw [Bool.and_eq_true]
  refine ⟨hlen, ?_⟩
  rw [List.all_eq_true]
  intro c hc
  rw [List.all_eq_true] at hall
  have hlen2 : s.length = 36 := by simpa using hlen
  have hlist : s.toList.length = 36 := hlen2
  obtain ⟨i, hi, hci⟩ := List.mem_iff_getElem.mp hc
  have hi36 : i < 36 := hlist ▸ hi
  have h2 := hall i (List.mem_range.mpr hi36)
  dsimp only at h2
  have hg : s.toList.getD i ' ' = c := by
    rw [List.getD_eq_getElem s.toList ' ' hi, hci]
  rw [hg] at h2
  by_cases hb : (i == 8 || i == 13 || i == 18 || i == 23) = true
  · rw [if_pos hb] at h2
    have hcc : c = '-' := eq_of_beq h2
    rw [hcc]
    decide
  · rw [if_neg hb] at h2
    unfold isIdChar
    rw [h2]
    rfl

/-- C7 (witness): the canonical UUID `tunnelIdA` passes the shape predicate
and is accepted by the validator. -/
theorem isValidTunnelId_superset_witness :
    uuidCanonicalShape tunnelIdA = true ∧ isValidTunnelId tunnelIdA = true :=
  ⟨by decide, isValidTunnelId_superset_of_uuid tunnelIdA (by decide)⟩

/-- C9 (counterexample): when the pointer file exists and parses but has no
`activeTunnelId` field, `getActiveTunnelId` returns `none` even though
exactly one credential file is present — the single-credential fallback
fires only when the pointer file is missing or unreadable. -/
theorem getActiveTunnelId_no_fallback_cex :
    getActiveTunnelId (some none) (some ["abc.json"]) = none ∧
    getActiveTunnelId none (some ["abc.json"]) = some "abc" := by
  decide

/-- C9 (amended): `getActiveTunnelId` returns the pointer file's non-empty
`activeTunnelId` when the file parses; if the file parses with the field
absent, the result is `none` with no fallback; only when reading or parsing
the pointer file fails does it fall back to the single `.json` credential
file (its name with the first ".json" removed), and with zero or several
credential files it returns `none`. -/
theorem getActiveTunnelId_pointer_priority :
    ∀ (credDir : Option (List String)) (id e : String),
      (id ≠ "" → getActiveTunnelId (some (some id)) credDir = some id) ∧
      (getActiveTunnelId (some none) credDir = none) ∧
      ((credDir.getD []).filter (fun n => strEndsWith n ".json") = [e] →
        getActiveTunnelId none credDir = some (stripJson e)) ∧
      (((credDir.getD []).filter (fun n => strEndsWith n ".json")).length ≠ 1 →
        getActiveTunnelId none credDir = none) := by
  intro credDir id e
  refine ⟨?_, rfl, ?_, ?_⟩
  · intro h
    simp [getActiveTunnelId, h]
  · intro h
    simp [getActiveTunnelId, h]
  · intro h
    simp [getActiveTunnelId, h]

/-- C9 (witness): the pointer file wins when populated, and several
credential files with no pointer give `none`. -/
theorem getActiveTunnelId_pointer_priority_witness :
    getActiveTunnelId (some (some "abc")) (some ["abc.json"]) = some "abc" ∧
    getActiveTunnelId none (some ["x.json", "y.json"]) = none :=
  ⟨(getActiveTunnelId_pointer_priority (some ["abc.json"]) "abc" "abc.json").1
      (by decide),
   (getActiveTunnelId_pointer_priority (some ["x.json", "y.json"]) "a" "b").2.2.2
      (by decide)⟩

/-- C10 (counterexample): `updateConfig` returns true on its early-return
path (the config already names the requested tunnel id) without touching the
`credentials-file` scalar or the pointer file, so the three persisted
references need not be mutually consistent after a true return: here the
credentials-file scalar and the pointer still name `tunnelIdB`. -/
theorem updateConfig_early_return_inconsistent :
    (updateConfig (some ⟨some tunnelIdA, some (credentialsPathFor tunnelIdB)⟩)
        (some ⟨tunnelIdB⟩) tunnelIdA).ok = true ∧
    (updateConfig (some ⟨some tunnelIdA, some (credentialsPathFor tunnelIdB)⟩)
        (some ⟨tunnelIdB⟩) tunnelIdA).config =
      some ⟨some tunnelIdA, some (credentialsPathFor tunnelIdB)⟩ ∧
    (updateConfig (some ⟨some tunnelIdA, some (credentialsPathFor tunnelIdB)⟩)
        (some ⟨tunnelIdB⟩) tunnelIdA).pointer = some ⟨tunnelIdB⟩ ∧
    credentialsPathFor tunnelIdB ≠ credentialsPathFor tunnelIdA ∧
    tunnelIdB ≠ tunnelIdA := by
  decide

/-- C10 (amended): whenever `updateConfig` actually rewrites (the config has
a `tunnel:` scalar different from the requested id) and returns true, the
three persisted references are mutually consistent: the config names the
new id, the credentials-file scalar names that id's credential file, and the
pointer file records the same id.  On the early-return path the function
returns true but writes nothing. -/
theorem updateConfig_rewrite_consistent :
    ∀ (c : ConfigYml) (ptr : Option PointerFile) (oldId tid : String),
      c.tunnel = some oldId → oldId ≠ tid →
      updateConfig (some c) ptr tid =
        ⟨true, some ⟨some tid, some (credentialsPathFor tid)⟩, some ⟨tid⟩⟩ := by
  intro c ptr oldId tid hold hne
  simp [updateConfig, hold, hne]

/-- C10 (witness): rewriting a drifted config to `tunnelIdA` yields the
consistent triple. -/
theorem updateConfig_rewrite_consistent_witness :
    updateConfig (some ⟨some tunnelIdB, some (credentialsPathFor tunnelIdB)⟩)
        (some ⟨tunnelIdB⟩) tunnelIdA =
      ⟨true, some ⟨some tunnelIdA, some (credentialsPathFor tunnelIdA)⟩,
       some ⟨tunnelIdA⟩⟩ :=
  updateConfig_rewrite_consistent
    ⟨some tunnelIdB, some (credentialsPathFor tunnelIdB)⟩
    (some ⟨tunnelIdB⟩) tunnelIdB tunnelIdA rfl (by decide)

/-- C2 (counterexample): with every action succeeding and the health
endpoint answering 500, the verification subprocess exits 1, the deploy
run's `verifySuccess` is false — yet `deploy.ts` `main` prints the
"verification failed" note and the deploy process exits 0, not non-zero. -/
theorem deploy_verification_failure_exits_zero :
    verifyDeploymentExit
        (FetchOutcome.response 200 "Hello World" (some "cloudflare"))
        (FetchOutcome.response 500 "Internal Server Error" (some "cloudflare")) = 1 ∧
    verifyFailRun.verifySuccess = false ∧
    (deployMain verifyFailRun).exitCode = 0 ∧
    (deployMain verifyFailRun).finalNote =
      some "Deployment completed but verification failed" := by
  decide

/-- C2 (amended): when all actions succeed but verification fails, the
verification subprocess exits non-zero (a 500 health response always fails
it), while the deploy process itself prints a warning note and exits 0. -/
theorem deploy_verification_failure_behavior :
    ∀ (r : DeployRun) (tid body : String) (hdr : Option String) (mo : FetchOutcome),
      r.loginSuccess = true → r.tunnelId = some tid →
      r.deploySuccess = true → r.verifySuccess = false →
      (deployMain r).exitCode = 0 ∧
      (deployMain r).finalNote = some "Deployment completed but verification failed" ∧
      verifyDeploymentExit mo (FetchOutcome.response 500 body hdr) = 1 := by
  intro r tid body hdr mo hl ht hd hv
  have h500 : testEndpoint healthEndpoint (FetchOutcome.response 500 body hdr) = false := by
    simp [testEndpoint, healthEndpoint]
  refine ⟨?_, ?_, ?_⟩
  · simp [deployMain, hl, ht, hd]
  · simp [deployMain, hl, ht, hd, hv]
  · cases hmo : testEndpoint mainEndpoint mo <;>
      simp [verifyDeploymentExit, hmo, h500]

/-- C2 (witness): the amended behaviour at the concrete failed run. -/
theorem deploy_verification_failure_behavior_witness :
    (deployMain verifyFailRun).exitCode = 0 ∧
    (deployMain verifyFailRun).finalNote =
      some "Deployment completed but verification failed" ∧
    verifyDeploymentExit (FetchOutcome.response 200 "Hello World" none)
      (FetchOutcome.response 500 "" none) = 1 :=
  deploy_verification_failure_behavior verifyFailRun tunnelIdA "" none
    (FetchOutcome.response 200 "Hello World" none)
    (by decide) (by decide) (by decide) (by decide)

/-- C5: a failed DNS-routing command whose error text contains
"already exists" is classified as successful by `handleDNSRouting`, no DNS
warning is printed, and the pipeline always continues past the DNS step into
the build step (DNS-routing failures never abort the run). -/
theorem dns_already_exists_tolerated :
    ∀ (res : CommandResult) (e : String) (r : DeployRun) (tid : String),
      res.success = false → res.error = some e →
      strContains e "already exists" = true →
      r.dnsResult = res → r.loginSuccess = true → r.tunnelId = some tid →
      dnsRouteOk res = true ∧
      Step.build ∈ (deployMain r).executed ∧
      "DNS routing failed" ∉ (deployMain r).warnings := by
  intro res e r tid hs he hc hdr hl ht
  have hok : dnsRouteOk res = true := by
    unfold dnsRouteOk
    rw [hs, he]
    simpa using hc
  refine ⟨hok, ?_, ?_⟩
  · cases hds : r.deploySuccess <;> simp [deployMain, hl, ht, hds]
  · have hok' : dnsRouteOk r.dnsResult = true := by rw [hdr]; exact hok
    cases hds : r.deploySuccess <;> cases hcs : r.configSuccess <;>
      simp [deployMain, hl, ht, hds, hcs, hok']

/-- C5 (witness): the tolerated classification at a concrete failed
DNS-routing result inside an otherwise successful run. -/
theorem dns_already_exists_tolerated_witness :
    dnsRouteOk dnsAlreadyExistsResult = true ∧
    Step.build ∈ (deployMain dnsTolerantRun).executed ∧
    "DNS routing failed" ∉ (deployMain dnsTolerantRun).warnings :=
  dns_already_exists_tolerated dnsAlreadyExistsResult
    "Failed to add route: code: 1003, reason: Record already exists."
    dnsTolerantRun tunnelIdA rfl rfl (by decide) rfl rfl rfl

/-- C3 (counterexample): on a registry listing two tunnels that both carry
the expected name, `handleTunnelCreation` returns the first one's id — the
deploy pipeline does select one of the duplicate-named tunnels as canonical
instead of refusing. -/
theorem duplicate_name_first_selected :
    handleTunnelCreation ⟨true, dupListing, none⟩ ⟨false, "", none⟩ = some tunnelIdA ∧
    (getTunnelList true dupListing []).map TunnelInfo.id = [tunnelIdA, tunnelIdB] ∧
    ((getTunnelList true dupListing []).filter
        (fun t => t.name == "cloudflare-tunnel-example")).length = 2 := by
  decide

/-- C3 (amended): with two or more registry entries sharing the expected
name, the Diagnostics Reporter does emit the duplicate-name issue, but the
deploy-side planner (`handleTunnelCreation`) still carries the first
matching line's id forward instead of refusing to select one. -/
theorem duplicate_name_issue_and_first_selection :
    ∀ (tunnels : List TunnelInfo) (cfg act : Option String) (dns conts : Bool),
      2 ≤ (tunnels.filter (fun t => t.name == "cloudflare-tunnel-example")).length →
      ("Multiple tunnels with same name 'cloudflare-tunnel-example'" ∈
          (diagnose tunnels cfg act dns conts).issues ∧
       handleTunnelCreation ⟨true, dupListing, none⟩ ⟨false, "", none⟩ =
         some tunnelIdA) := by
  intro tunnels cfg act dns conts h
  have hle :=
    List.length_filter_le (fun t => t.name == "cloudflare-tunnel-example") tunnels
  have h2 : 1 < tunnels.length := by omega
  have h0 : ¬ (tunnels.length = 0) := by omega
  have hfil :
      1 < (tunnels.filter (fun t => t.name == "cloudflare-tunnel-example")).length := by
    omega
  constructor
  · have hts : tunnelSection tunnels =
        (["Multiple tunnels with same name 'cloudflare-tunnel-example'"],
         ["Delete old tunnels or use unique names"]) := by
      unfold tunnelSection
      rw [if_neg h0, if_pos h2, if_pos hfil]
    simp [diagnose, hts]
  · decide

/-- C3 (witness): the amended claim at the two concrete duplicate-named
registry entries. -/
theorem duplicate_name_issue_witness :
    "Multiple tunnels with same name 'cloudflare-tunnel-example'" ∈
      (diagnose [dupTunnelA, dupTunnelB] none none false false).issues ∧
    handleTunnelCreation ⟨true, dupListing, none⟩ ⟨false, "", none⟩ = some tunnelIdA :=
  duplicate_name_issue_and_first_selection [dupTunnelA, dupTunnelB] none none false false
    (by decide)

/-- C8: invoked with no (truthy) tunnel-id argument while several credential
files exist, `update-config.ts` exits 1, leaves the config file and the
pointer file untouched, and prints the list of candidate tunnel ids. -/
theorem updateConfigMain_refuses_ambiguous :
    ∀ (credDir : Option (List String)) (cfg : Option ConfigYml)
      (ptr : Option PointerFile),
      2 ≤ (getCredentialTunnelIds credDir).length →
      updateConfigMain none credDir cfg ptr =
        ⟨1, cfg, ptr, getCredentialTunnelIds credDir⟩ := by
  intro credDir cfg ptr h
  have h0 : ¬ ((getCredentialTunnelIds credDir).length = 0) := by omega
  have h1 : ¬ ((getCredentialTunnelIds credDir).length = 1) := by omega
  simp [updateConfigMain, h0, h1]

/-- C8 (witness): two credential files, no argument — refused with both
candidates listed and no file modified. -/
theorem updateConfigMain_refuses_ambiguous_witness :
    2 ≤ (getCredentialTunnelIds (some ["a.json", "b.json"])).length ∧
    updateConfigMain none (some ["a.json", "b.json"]) none none =
      ⟨1, none, none, ["a", "b"]⟩ := by
  refine ⟨by decide, ?_⟩
  rw [updateConfigMain_refuses_ambiguous (some ["a.json", "b.json"]) none none
    (by decide)]
  decide

/-- Helper: one relocation step never removes a file from the credentials
directory. -/
theorem credStep_cred_sub (acc : List FileEntry × List FileEntry × Option String)
    (f g : FileEntry) (hg : g ∈ acc.2.1) : g ∈ (credStep acc f).2.1 := by
  unfold credStep
  split
  · split
    · simpa using hg
    · simp only []
      exact List.mem_append_left _ hg
  · simpa using hg

/-- Helper: one relocation step never removes a file from the root listing. -/
theorem credStep_root_sub (acc : List FileEntry × List FileEntry × Option String)
    (f g : FileEntry) (hg : g ∈ acc.1) : g ∈ (credStep acc f).1 := by
  unfold credStep
  split
  · split
    · exact List.mem_append_left _ hg
    · simpa using hg
  · exact List.mem_append_left _ hg

/-- Helper: the whole relocation fold never removes a credentials file. -/
theorem credFold_cred_sub (l : List FileEntry)
    (acc : List FileEntry × List FileEntry × Option String)
    (g : FileEntry) (hg : g ∈ acc.2.1) : g ∈ (l.foldl credStep acc).2.1 := by
  induction l generalizing acc with
  | nil => exact hg
  | cons h t ih =>
    rw [List.foldl_cons]
    exact ih _ (credStep_cred_sub acc h g hg)

/-- Helper: the whole relocation fold never removes a kept root file. -/
theorem credFold_root_sub (l : List FileEntry)
    (acc : List FileEntry × List FileEntry × Option String)
    (g : FileEntry) (hg : g ∈ acc.1) : g ∈ (l.foldl credStep acc).1 := by
  induction l generalizing acc with
  | nil => exact hg
  | cons h t ih =>
    rw [List.foldl_cons]
    exact ih _ (credStep_root_sub acc h g hg)

/-- Helper: a `.json` root file whose name already exists in the credentials
directory is kept in the root listing by the fold. -/
theorem credFold_keeps_source (l : List FileEntry)
    (acc : List FileEntry × List FileEntry × Option String)
    (f : FileEntry) (hf : f ∈ l) (hjson : strEndsWith f.name ".json" = true)
    (hex : ∃ g ∈ acc.2.1, g.name = f.name) :
    f ∈ (l.foldl credStep acc).1 := by
  induction l generalizing acc with
  | nil => cases hf
  | cons h t ih =>
    rw [List.foldl_cons]
    rcases List.mem_cons.mp hf with hfh | hf'
    · subst hfh
      have hany : (acc.2.1.any (fun g => g.name == f.name)) = true := by
        rcases hex with ⟨g, hg, hgn⟩
        exact List.any_eq_true.mpr ⟨g, hg, by simp [hgn]⟩
      have hmem : f ∈ (credStep acc f).1 := by
        unfold credStep
        rw [if_pos hjson, if_pos hany]
        simp
      exact credFold_root_sub t _ f hmem
    · rcases hex with ⟨g, hg, hgn⟩
      exact ih _ hf' ⟨g, credStep_cred_sub acc h g hg, hgn⟩

/-- Helper: as long as some credentials file already carries the name `n`,
one step changes nothing among the credentials files named `n`. -/
theorem credStep_filter_eq (acc : List FileEntry × List FileEntry × Option String)
    (h : FileEntry) (n : String) (hex : ∃ g ∈ acc.2.1, g.name = n) :
    ((credStep acc h).2.1).filter (fun x => x.name == n) =
      acc.2.1.filter (fun x => x.name == n) := by
  unfold credStep
  split
  · split
    · simp
    · rename_i hany
      have hne : (h.name == n) = false := by
        rcases hex with ⟨g, hg, hgn⟩
        cases hb : (h.name == n)
        · rfl
        · exfalso
          apply hany
          have hhn : h.name = n := eq_of_beq hb
          exact List.any_eq_true.mpr ⟨g, hg, by simp [hgn, hhn]⟩
      simp [List.filter_append, hne]
  · simp

/-- Helper: as long as some credentials file already carries the name `n`,
the whole fold changes nothing among the credentials files named `n`. -/
theorem credFold_filter_eq (l : List FileEntry)
    (acc : List FileEntry × List FileEntry × Option String)
    (n : String) (hex : ∃ g ∈ acc.2.1, g.name = n) :
    ((l.foldl credStep acc).2.1).filter (fun x => x.name == n) =
      acc.2.1.filter (fun x => x.name == n) := by
  induction l generalizing acc with
  | nil => rfl
  | cons h t ih =>
    rw [List.foldl_cons]
    have hex' : ∃ g ∈ (credStep acc h).2.1, g.name = n := by
      rcases hex with ⟨g, hg, hgn⟩
      exact ⟨g, credStep_cred_sub acc h g hg, hgn⟩
    rw [ih _ hex', credStep_filter_eq acc h n hex]

/-- C4: when a root `.json` credential file's name already exists in the
credentials directory, `ensureCredentialsInCorrectLocation` keeps the source
file in the root listing (it is not renamed) and leaves the set of
credentials files of that name — in particular the existing destination
file — exactly as it was; the operation is total (loop errors are caught
and logged as warnings), so no fatal error is raised. -/
theorem credential_relocation_never_overwrites :
    ∀ (d : CloudflaredDir) (cred : List FileEntry) (f g : FileEntry),
      d.credDir = some cred →
      f ∈ d.rootFiles →
      strEndsWith f.name ".json" = true →
      g ∈ cred → g.name = f.name →
      f ∈ (ensureCredentialsInCorrectLocation d).1.rootFiles ∧
      ((ensureCredentialsInCorrectLocation d).1.credDir.getD []).filter
          (fun x => x.name == f.name) =
        cred.filter (fun x => x.name == f.name) := by
  intro d cred f g hcd hf hjson hg hgn
  unfold ensureCredentialsInCorrectLocation
  rw [hcd]
  constructor
  · exact credFold_keeps_source d.rootFiles ([], cred, none) f hf hjson ⟨g, hg, hgn⟩
  · simpa using credFold_filter_eq d.rootFiles ([], cred, none) f.name ⟨g, hg, hgn⟩

/-- C4 (witness): the concrete collision — the new root file stays in place
and the old destination file survives untouched. -/
theorem credential_relocation_never_overwrites_witness :
    conflictNew ∈ (ensureCredentialsInCorrectLocation conflictDir).1.rootFiles ∧
    ((ensureCredentialsInCorrectLocation conflictDir).1.credDir.getD []).filter
        (fun x => x.name == conflictNew.name) =
      [conflictOld].filter (fun x => x.name == conflictNew.name) :=
  credential_relocation_never_overwrites conflictDir [conflictOld]
    conflictNew conflictOld rfl (by decide) (by decide) (by decide) rfl

end CloudflareTunnel
